import Mathlib

/-!
Shallow embedding of the risk scoring engine in `src/utils.py` of the
claims_likelihood_gb repository: the attribute normalizer (`safe_float`,
`safe_int`), the four category risk calculators, the claims matcher, the
score aggregator (`calculate_all_risk_scores`) and the batch processor
(`add_risk_scores_to_df`).

Modelling conventions:
- a pandas cell value is a `Val`: a string, a rational number (Python
  ints/floats are modelled as exact rationals), Python `None`, or NaN;
- a property row (`pd.Series`) is an association list from field name to
  `Val`; a DataFrame is a column-name list plus a list of rows;
- `Series.get(key)` returns `None` when the key is absent, `Series.get(key,
  default)` returns the default; both are modelled by `pyGet` / `pyGetD`;
- Python string formatting of numbers (`:.1f`, `:,.0f`) is abstracted by
  `fmtQ`; the conditions under which factor strings are emitted are exact;
- Python `float(...)` string parsing is modelled for sign/digits/decimal
  point (exponents, inf/nan literals and underscores are not modelled);
- Python set iteration order (loss-type aggregation) is modelled as
  first-occurrence order;
- a raised Python exception is modelled as `Except.error`.
-/

namespace ClaimsLikelihood

/-- A pandas cell value: string, number (int/float as exact rational),
Python `None`, or NaN. -/
inductive Val where
  | str (s : String)
  | num (q : ℚ)
  | none
  | nan
deriving DecidableEq

/-- A property row (`pd.Series`): association list field name → value. -/
abbrev Row := List (String × Val)

/-- A DataFrame: the column names and the rows. -/
structure Table where
  cols : List String
  rows : List Row
deriving DecidableEq

def rowGet? (r : Row) (k : String) : Option Val :=
  (r.find? (fun p => p.1 == k)).map Prod.snd

/-- `row.get(key)` on a pandas Series: `None` when absent. -/
def pyGet (r : Row) (k : String) : Val :=
  (rowGet? r k).getD Val.none

/-- `row.get(key, default)` on a pandas Series. -/
def pyGetD (r : Row) (k : String) (d : Val) : Val :=
  (rowGet? r k).getD d

/-- A DataFrame cell: a missing key inside a row is NaN. -/
def cellOf (r : Row) (c : String) : Val :=
  (rowGet? r c).getD Val.nan

@[simp] theorem val_num_ne_str (q : ℚ) (s : String) :
    Val.num q ≠ Val.str s := fun h => Val.noConfusion h

@[simp] theorem val_none_ne_str (s : String) :
    Val.none ≠ Val.str s := fun h => Val.noConfusion h

@[simp] theorem val_nan_ne_str (s : String) :
    Val.nan ≠ Val.str s := fun h => Val.noConfusion h

/-- `pd.isna`. -/
def isNA : Val → Bool
  | Val.none => true
  | Val.nan => true
  | _ => false

/-- Python truthiness of a cell value (`if row_id:`); NaN is truthy. -/
def truthy : Val → Bool
  | Val.none => false
  | Val.nan => true
  | Val.str s => s != ""
  | Val.num q => q != 0

/-- Python `str(...)` of a cell value. Numeric repr is abstracted as the
rational's representation (an integer renders without a decimal point). -/
def pyStr : Val → String
  | Val.str s => s
  | Val.num q => if q.den = 1 then toString q.num else toString q
  | Val.none => "None"
  | Val.nan => "nan"

/-- `==` comparison used by DataFrame filtering; NaN compares unequal to
everything, values of different types compare unequal. -/
def valEq : Val → Val → Bool
  | Val.nan, _ => false
  | _, Val.nan => false
  | Val.str a, Val.str b => a == b
  | Val.num a, Val.num b => a == b
  | Val.none, Val.none => true
  | _, _ => false

-- ---------------------------------------------------------------------------
-- String utilities (self-contained, mirroring the Python string methods used)
-- ---------------------------------------------------------------------------

def isWS (c : Char) : Bool :=
  c == ' ' || c == '\t' || c == '\n' || c == '\r'

/-- Python `str.strip()`. -/
def strTrim (s : String) : String :=
  String.mk (((s.data.dropWhile isWS).reverse.dropWhile isWS).reverse)

/-- Python `str.lower()` (ASCII). -/
def strLower (s : String) : String :=
  String.mk (s.data.map Char.toLower)

def listIsPrefix : List Char → List Char → Bool
  | [], _ => true
  | _ :: _, [] => false
  | a :: as, b :: bs => a == b && listIsPrefix as bs

def containsFrom : List Char → List Char → Bool
  | [], pat => pat.isEmpty
  | s@(_ :: t), pat => listIsPrefix pat s || containsFrom t pat

/-- Python `pat in s` substring test. -/
def strContains (s pat : String) : Bool :=
  containsFrom s.data pat.data

def replaceFrom (pat rep : List Char) : List Char → List Char
  | [] => []
  | c :: t =>
    if pat ≠ [] ∧ listIsPrefix pat (c :: t) then
      rep ++ replaceFrom pat rep ((c :: t).drop pat.length)
    else
      c :: replaceFrom pat rep t
termination_by s => s.length
decreasing_by
  · simp only [List.length_drop, List.length_cons]
    rename_i h
    have hp : pat ≠ [] := h.1
    have : 0 < pat.length := List.length_pos.mpr hp
    omega
  · simp

/-- Python `str.replace(pat, rep)` (all non-overlapping occurrences,
left to right; the empty pattern leaves the string unchanged). -/
def strReplace (s pat rep : String) : String :=
  String.mk (replaceFrom pat.data rep.data s.data)

/-- Python `sep.join(xs)`. -/
def joinSep (sep : String) : List String → String
  | [] => ""
  | [x] => x
  | x :: xs => x ++ sep ++ joinSep sep xs

-- ---------------------------------------------------------------------------
-- Attribute normalizer: safe_float / safe_int
-- ---------------------------------------------------------------------------

def digitVal (c : Char) : ℕ := c.toNat - 48

def digitsToNat (cs : List Char) : ℕ :=
  cs.foldl (fun acc c => acc * 10 + digitVal c) 0

/-- Python `float(s)` on a cleaned string: optional sign, digits with at
most one decimal point, at least one digit; surrounding whitespace is
stripped. Exponents and inf/nan literals are not modelled. -/
def pyFloat? (s : String) : Option ℚ :=
  let cs := (strTrim s).data
  let signed : ℚ × List Char :=
    match cs with
    | '-' :: t => (-1, t)
    | '+' :: t => (1, t)
    | _ => (1, cs)
  let sign := signed.1
  let body := signed.2
  let intPart := body.takeWhile Char.isDigit
  let rest := body.dropWhile Char.isDigit
  match rest with
  | [] =>
    if intPart.isEmpty then Option.none
    else some (sign * digitsToNat intPart)
  | '.' :: frac =>
    if frac.all Char.isDigit ∧ ¬(intPart.isEmpty ∧ frac.isEmpty) then
      some (sign * ((digitsToNat intPart : ℚ) +
        (digitsToNat frac : ℚ) / ((10 : ℚ) ^ frac.length)))
    else Option.none
  | _ => Option.none

/-- Removal of the `$`, `,`, `%` characters done by `safe_float`. -/
def stripMoneyPct (s : String) : String :=
  String.mk (s.data.filter (fun c => c ≠ '$' ∧ c ≠ ',' ∧ c ≠ '%'))

/-- `safe_float` from src/utils.py: NaN/None/empty-string → default,
strings are stripped and cleaned of `$`, `,`, `%` then parsed, parse
failure → default. -/
def safe_float (v : Val) (d : ℚ) : ℚ :=
  match v with
  | Val.none => d
  | Val.nan => d
  | Val.num q => q
  | Val.str s =>
    if s = "" then d
    else (pyFloat? (stripMoneyPct (strTrim s))).getD d

/-- Python `int(...)` truncation toward zero on a rational. -/
def ratTrunc (q : ℚ) : ℤ :=
  if 0 ≤ q then ⌊q⌋ else -⌊-q⌋

/-- `safe_int` from src/utils.py: `int(safe_float(val, default))`. -/
def safe_int (v : Val) (d : ℤ) : ℤ :=
  ratTrunc (safe_float v (d : ℚ))

/-- Abstraction of Python numeric string formatting (`:.1f`, `:,.0f`,
plain `{x}`): the exact rendered text is not load-bearing for any claim. -/
def fmtQ (q : ℚ) : String :=
  if q.den = 1 then toString q.num else toString q

-- ---------------------------------------------------------------------------
-- Risk scoring lookup tables (module-level dicts in src/utils.py)
-- ---------------------------------------------------------------------------

def CONSTRUCTION_RISK : List (String × ℚ) :=
  [("Fire Resistive", 10), ("Non-Combustible", 25),
   ("Masonry Non-Combustible", 30), ("Joisted Masonry", 50), ("Frame", 80)]

def ROOF_CONDITION_RISK : List (String × ℚ) :=
  [("New", 10), ("Very Good", 20), ("Good", 30), ("Fair", 50), ("Poor", 80)]

def FEMA_FLOOD_ZONE_RISK : List (String × ℚ) :=
  [("X", 10), ("D", 20), ("A", 50), ("AE", 60), ("VE", 90)]

def EARTHQUAKE_ZONE_RISK : List (String × ℚ) :=
  [("Zone 0", 10), ("Zone 1", 25), ("Zone 2", 45), ("Zone 3", 65),
   ("Zone 4", 85)]

def BURGLAR_ALARM_RISK : List (String × ℚ) :=
  [("Central Station", 10), ("Video Verified", 20), ("Monitored", 35),
   ("Local", 50), ("None", 80)]

/-- Python `DICT.get(value, default)` where the dict keys are strings and
the looked-up value is a cell value (a non-string never matches). -/
def dictGetV (d : List (String × ℚ)) (v : Val) (dflt : ℚ) : ℚ :=
  match v with
  | Val.str s => ((d.lookup s).getD dflt)
  | _ => dflt

-- ---------------------------------------------------------------------------
-- Property risk calculator (calculate_property_risk)
-- ---------------------------------------------------------------------------

def construction_of (row : Row) : Val :=
  pyGetD row "Construction Type" (Val.str "Frame")

def construction_score (row : Row) : ℚ :=
  dictGetV CONSTRUCTION_RISK (construction_of row) 50

def year_built_of (row : Row) : ℤ :=
  let v := pyGet row "Year Built"
  if isNA v || v == Val.str "" then 1970 else safe_int v 1970

def building_age (row : Row) : ℤ := 2025 - year_built_of row

def age_score (row : Row) : ℚ :=
  if 50 < building_age row then 80
  else if 25 < building_age row then 50
  else 20

def roof_of (row : Row) : Val :=
  pyGetD row "Verified Roof Condition" (Val.str "Fair")

def roof_score (row : Row) : ℚ :=
  dictGetV ROOF_CONDITION_RISK (roof_of row) 50

def sprinkler_pct (row : Row) : ℚ :=
  safe_float (pyGet row "Sprinklered %") 50

def sprinkler_score (row : Row) : ℚ :=
  if 70 < sprinkler_pct row then 20
  else if 30 < sprinkler_pct row then 45
  else 75

/-- Notable-factor strings of the sprinkler component (emitted only on the
lowest branch, which reports the percentage). -/
def sprinkler_factors (row : Row) : List String :=
  if 70 < sprinkler_pct row then []
  else if 30 < sprinkler_pct row then []
  else [s!"Low Sprinkler Coverage: {fmtQ (sprinkler_pct row)}%"]

/-- Notable factors of the property calculator, in source append order:
construction, age, roof, sprinkler. -/
def property_notables (row : Row) : List String :=
  (if 60 ≤ construction_score row then
    [s!"Construction Type: {pyStr (construction_of row)} (High Risk)"]
   else []) ++
  (if 50 < building_age row then
    [s!"Building Age: {building_age row} years (High Risk)"]
   else []) ++
  (if 60 ≤ roof_score row then
    [s!"Roof Condition: {pyStr (roof_of row)} (High Risk)"]
   else []) ++
  sprinkler_factors row

def property_breakdown (row : Row) : List String :=
  [s!"**Construction Type:** {pyStr (construction_of row)} ({fmtQ (construction_score row)}%)",
   s!"**Year Built:** {year_built_of row} (Age: {building_age row} yrs, Score: {fmtQ (age_score row)}%)",
   s!"**Roof Condition:** {pyStr (roof_of row)} ({fmtQ (roof_score row)}%)",
   s!"**Sprinkler Coverage:** {fmtQ (sprinkler_pct row)}% ({fmtQ (sprinkler_score row)}%)"]

/-- `calculate_property_risk`: (score, notable factors, breakdown);
the score is the mean of the four component scores. -/
def calculate_property_risk (row : Row) : ℚ × List String × List String :=
  ((construction_score row + age_score row + roof_score row +
      sprinkler_score row) / 4,
   property_notables row, property_breakdown row)

-- ---------------------------------------------------------------------------
-- Geographic risk calculator (calculate_geographic_risk)
-- ---------------------------------------------------------------------------

def wildfire_of (row : Row) : ℚ :=
  safe_float (pyGet row "Wildfire Risk Score") 50

def flood_zone_of (row : Row) : Val :=
  pyGetD row "FEMA Flood Zone" (Val.str "X")

def flood_score (row : Row) : ℚ :=
  dictGetV FEMA_FLOOD_ZONE_RISK (flood_zone_of row) 50

def eq_zone_of (row : Row) : Val :=
  pyGetD row "Earthquake Zone" (Val.str "Zone 0")

def eq_score (row : Row) : ℚ :=
  dictGetV EARTHQUAKE_ZONE_RISK (eq_zone_of row) 30

def crime_of (row : Row) : ℚ :=
  safe_float (pyGet row "Crime Score") 50

def geographic_notables (row : Row) : List String :=
  (if 70 < wildfire_of row then
    [s!"High Wildfire Risk: {fmtQ (wildfire_of row)}"] else []) ++
  (if 60 ≤ flood_score row then
    [s!"FEMA Flood Zone: {pyStr (flood_zone_of row)}"] else []) ++
  (if 60 ≤ eq_score row then
    [s!"Earthquake Zone: {pyStr (eq_zone_of row)}"] else []) ++
  (if 70 < crime_of row then
    [s!"High Crime Score: {fmtQ (crime_of row)}"] else [])

def geographic_breakdown (row : Row) : List String :=
  [s!"**Wildfire Risk:** {fmtQ (wildfire_of row)} ({fmtQ (wildfire_of row)}%)",
   s!"**FEMA Flood Zone:** {pyStr (flood_zone_of row)} ({fmtQ (flood_score row)}%)",
   s!"**Earthquake Zone:** {pyStr (eq_zone_of row)} ({fmtQ (eq_score row)}%)",
   s!"**Crime Score:** {fmtQ (crime_of row)} ({fmtQ (crime_of row)}%)"]

/-- `calculate_geographic_risk`: mean of wildfire (raw), flood zone
lookup, earthquake zone lookup, crime (raw). -/
def calculate_geographic_risk (row : Row) : ℚ × List String × List String :=
  ((wildfire_of row + flood_score row + eq_score row + crime_of row) / 4,
   geographic_notables row, geographic_breakdown row)

-- ---------------------------------------------------------------------------
-- Protection risk calculator (calculate_protection_risk)
-- ---------------------------------------------------------------------------

def fpc_of (row : Row) : ℤ :=
  safe_int (pyGet row "Fire Protection Class") 5

def fpc_score (row : Row) : ℚ :=
  if 8 ≤ fpc_of row then 80
  else if 5 ≤ fpc_of row then 50
  else 20

def alarm_of (row : Row) : Val :=
  pyGetD row "Burglar Alarm Type" (Val.str "None")

def alarm_score (row : Row) : ℚ :=
  dictGetV BURGLAR_ALARM_RISK (alarm_of row) 50

def distance_of (row : Row) : ℚ :=
  let d1 := pyGet row "Distance to Fire Station (miles)"
  let dv := if isNA d1 || d1 == Val.str "" then
    pyGet row "Distance to Fire Station" else d1
  safe_float dv 10

def dist_score (row : Row) : ℚ :=
  if 15 < distance_of row then 75
  else if 5 < distance_of row then 45
  else 20

def protection_notables (row : Row) : List String :=
  (if 8 ≤ fpc_of row then
    [s!"Poor Fire Protection Class: {fpc_of row}"] else []) ++
  (if 60 ≤ alarm_score row then
    [s!"Burglar Alarm: {pyStr (alarm_of row)}"] else []) ++
  (if 15 < distance_of row then
    [s!"Far from Fire Station: {fmtQ (distance_of row)} mi"] else [])

def protection_breakdown (row : Row) : List String :=
  [s!"**Fire Protection Class:** {fpc_of row} ({fmtQ (fpc_score row)}%)",
   s!"**Burglar Alarm Type:** {pyStr (alarm_of row)} ({fmtQ (alarm_score row)}%)",
   s!"**Fire Station Distance:** {fmtQ (distance_of row)} mi ({fmtQ (dist_score row)}%)"]

/-- `calculate_protection_risk`: mean of fire protection class, burglar
alarm lookup, fire-station distance. -/
def calculate_protection_risk (row : Row) : ℚ × List String × List String :=
  ((fpc_score row + alarm_score row + dist_score row) / 3,
   protection_notables row, protection_breakdown row)

-- ---------------------------------------------------------------------------
-- Claims matcher and claims-history risk calculator (calculate_claims_risk)
-- ---------------------------------------------------------------------------

def addr_replacements : List (String × String) :=
  [("street", "st"), ("avenue", "ave"), ("road", "rd"),
   ("boulevard", "blvd"), ("drive", "dr"), ("place", "pl"),
   ("lane", "ln"), ("court", "ct")]

/-- The address normalization loop: each suffix replacement followed by
removal of `.`, applied in dict order. -/
def normAddr (a : String) : String :=
  addr_replacements.foldl
    (fun acc p => strReplace (strReplace acc p.1 p.2) "." "") a

/-- One address-like ledger column: raw substring match first, then the
suffix-normalized match. -/
def addrColMatches (t : Table) (c : String) (raw norm : String) : List Row :=
  let m1 := t.rows.filter
    (fun r => strContains (strLower (pyStr (cellOf r c))) raw)
  if m1.isEmpty then
    t.rows.filter
      (fun r => strContains (normAddr (strLower (pyStr (cellOf r c)))) norm)
  else m1

/-- Walk the address-like columns in order; the first column yielding any
hit wins (the Python loop `break`s). -/
def firstAddrMatch (t : Table) (raw norm : String) :
    List String → Option (List Row)
  | [] => Option.none
  | c :: rest =>
    let m := addrColMatches t c raw norm
    if m.isEmpty then firstAddrMatch t raw norm rest else some m

/-- The claims matcher: exact Agency Customer ID filter first, then the
fuzzy address search. `some matched` means `match_found` became True. -/
def claimsMatch (row : Row) (t : Table) : Option (List Row) :=
  let row_id := pyGet row "Agency Customer ID"
  let idMatched : List Row :=
    if truthy row_id && t.cols.contains "Agency Customer ID" then
      t.rows.filter (fun r => valEq (cellOf r "Agency Customer ID") row_id)
    else []
  if !idMatched.isEmpty then some idMatched
  else
    let row_addr := strTrim (strLower (pyStr (pyGetD row "Street Address" (Val.str ""))))
    if row_addr != "" && row_addr != "nan" then
      let addr_cols := t.cols.filter
        (fun c => strContains (strLower c) "address" ||
                  strContains (strLower c) "location")
      firstAddrMatch t row_addr (normAddr row_addr) addr_cols
    else Option.none

def amount_keywords : List String :=
  ["incurred", "paid", "total amount", "payment", "claim amount"]

def type_keywords : List String := ["type", "cause", "reason", "desc"]

/-- One ledger amount cell coerced to float for summation: numbers pass
through, None/NaN contribute 0 (pandas `sum` skips NaN), strings are
cleaned of `$` and `,` then parsed; a parse failure fails the whole sum
(the `astype(float)` exception path). -/
def cellAmount? : Val → Option ℚ
  | Val.num q => some q
  | Val.none => some 0
  | Val.nan => some 0
  | Val.str s => pyFloat? (strTrim (String.mk (s.data.filter (fun c => c ≠ '$' ∧ c ≠ ','))))

def sumAmount (rows : List Row) (c : String) : ℚ :=
  let vals := rows.map (fun r => cellAmount? (cellOf r c))
  if vals.all Option.isSome then (vals.map (fun o => o.getD 0)).sum else 0

/-- The ledger-derived claim amount: the first column whose name contains
an amount keyword, preferring one containing "incurred"; no candidate
column (or a conversion failure) gives 0. -/
def calcAmount (t : Table) (matched : List Row) : ℚ :=
  let amount_cols := t.cols.filter
    (fun c => amount_keywords.any (fun k => strContains (strLower c) k))
  match amount_cols with
  | [] => 0
  | a :: _ =>
    let target :=
      (amount_cols.find? (fun c => strContains (strLower c) "incurred")).getD a
    sumAmount matched target

def summary_count (row : Row) : ℤ :=
  safe_int (pyGet row "Loss History - Count") 0

def summary_amount (row : Row) : ℚ :=
  safe_float (pyGet row "Loss History - Total Amount") 0

/-- The local variables of `calculate_claims_risk` after the optional
ledger-matching block: `match_found = Option.none` models the Python local
never having been assigned (ledger absent, or present but empty). -/
structure LossResolution where
  loss_count : ℤ
  loss_amount : ℚ
  match_found : Option Bool
  matched : List Row
deriving DecidableEq

def resolveLoss (row : Row) (claims_df : Option Table) : LossResolution :=
  let c0 := summary_count row
  let a0 := summary_amount row
  match claims_df with
  | Option.none => ⟨c0, a0, Option.none, []⟩
  | some t =>
    if t.rows.isEmpty then ⟨c0, a0, Option.none, []⟩
    else
      match claimsMatch row t with
      | Option.none => ⟨c0, a0, some false, []⟩
      | some matched =>
        ⟨max c0 (matched.length : ℤ), max a0 (calcAmount t matched),
         some true, matched⟩

def countScore (n : ℤ) : ℚ :=
  if 15 < n then 90 else if 5 < n then 60 else if 2 < n then 40 else 15

def countFactors (n : ℤ) : List String :=
  if 15 < n then [s!"High Claim Count: {n} claims"] else []

def amountScore (a : ℚ) : ℚ :=
  if 5000000 < a then 90
  else if 2000000 < a then 65
  else if 500000 < a then 40
  else 20

def amountFactors (a : ℚ) : List String :=
  if 5000000 < a then [s!"High Loss Amount: ${fmtQ a}"] else []

/-- Loss types aggregated from the matched ledger rows: every column whose
name contains a type keyword, non-NA values stringified; Python's set
iteration order is modelled as first-occurrence order. -/
def collectTypes (t : Table) (matched : List Row) : List String :=
  let type_cols := t.cols.filter
    (fun c => type_keywords.any (fun k => strContains (strLower c) k))
  type_cols.foldl
    (fun acc c =>
      let vals := ((matched.map (fun r => cellOf r c)).filter
        (fun v => !isNA v)).map pyStr
      vals.foldl (fun a v => if a.contains v then a else a ++ [v]) acc)
    []

def typeScore (s : String) : ℚ :=
  if strContains s "Fire" then 80
  else if strContains s "Flood" || strContains s "Tornado" then 70
  else if strContains s "Theft" || strContains s "Vandalism" then 40
  else 30

def typeFactors (s : String) : List String :=
  if strContains s "Fire" then ["Fire Loss History"] else []

/-- The loss-type string: the record's own summary field, replaced by the
aggregated ledger types when matching succeeded. Reading `match_found`
while the Python local is unbound (ledger present but empty) raises. -/
def lossTypesOf (row : Row) (claims_df : Option Table) (r : LossResolution) :
    Except String String :=
  let lt0 := pyStr (pyGetD row "Loss History - Type" (Val.str ""))
  match claims_df with
  | Option.none => Except.ok lt0
  | some t =>
    match r.match_found with
    | Option.none =>
      Except.error
        "UnboundLocalError: local variable match_found referenced before assignment"
    | some mf =>
      if mf && !r.matched.isEmpty then
        let collected := collectTypes t r.matched
        Except.ok (if collected.isEmpty then lt0
          else joinSep ", " collected)
      else Except.ok lt0

def claimsBreakdown (r : LossResolution) (loss_types : String) : List String :=
  let disp := if strTrim loss_types = "" then "N/A" else strTrim loss_types
  [s!"**Claim Count:** {r.loss_count} ({fmtQ (countScore r.loss_count)}%)",
   s!"**Total Loss Amount:** ${fmtQ r.loss_amount} ({fmtQ (amountScore r.loss_amount)}%)",
   s!"**Loss Types:** {disp} ({fmtQ (typeScore loss_types)}%)"]

/-- `calculate_claims_risk`: (score, notable factors, breakdown), or the
exception the Python function raises. -/
def calculate_claims_risk (row : Row) (claims_df : Option Table) :
    Except String (ℚ × List String × List String) :=
  let r := resolveLoss row claims_df
  match lossTypesOf row claims_df r with
  | Except.error e => Except.error e
  | Except.ok loss_types =>
    let score := (countScore r.loss_count + amountScore r.loss_amount +
      typeScore loss_types) / 3
    let factors := countFactors r.loss_count ++
      amountFactors r.loss_amount ++ typeFactors loss_types
    Except.ok (score, factors, claimsBreakdown r loss_types)

-- ---------------------------------------------------------------------------
-- Score aggregator (calculate_all_risk_scores)
-- ---------------------------------------------------------------------------

structure RiskScores where
  property_risk : ℚ
  claims_risk : ℚ
  geographic_risk : ℚ
  protection_risk : ℚ
  overall_score : ℚ
  risk_level : String
  recommendation : String
  top_factors : List String
  property_factors : List String
  claims_factors : List String
  geographic_factors : List String
  protection_factors : List String
deriving DecidableEq

def w_property : ℚ := 0.25
def w_claims : ℚ := 0.30
def w_geographic : ℚ := 0.25
def w_protection : ℚ := 0.20

def overallScoreOf (p c g pr : ℚ) : ℚ :=
  p * w_property + c * w_claims + g * w_geographic + pr * w_protection

/-- Risk level and recommendation as a function of the overall score. -/
def riskLevelOf (s : ℚ) : String × String :=
  if s < 45 then ("LOW", "AUTO-BIND ELIGIBLE")
  else if s < 60 then ("MEDIUM", "STANDARD REVIEW")
  else if s < 80 then ("HIGH", "REFER TO SENIOR UNDERWRITER")
  else ("VERY HIGH", "DECLINE OR SPECIAL REVIEW")

/-- Python `round(x, 1)`: round half to even at one decimal place
(exact-rational model of the float rounding). -/
def rhe (q : ℚ) : ℤ :=
  let f := ⌊q⌋
  let r := q - f
  if r < 1/2 then f
  else if 1/2 < r then f + 1
  else if f % 2 = 0 then f else f + 1

def round1 (q : ℚ) : ℚ := (rhe (10 * q) : ℚ) / 10

/-- `calculate_all_risk_scores`: the four calculators, the weighted
overall score, the tier mapping, and the first-5 truncation of the
concatenated notable factors. -/
def calculate_all_risk_scores (row : Row) (claims_df : Option Table) :
    Except String RiskScores :=
  let p := calculate_property_risk row
  match calculate_claims_risk row claims_df with
  | Except.error e => Except.error e
  | Except.ok c =>
    let g := calculate_geographic_risk row
    let pr := calculate_protection_risk row
    let overall := overallScoreOf p.1 c.1 g.1 pr.1
    let lvl := riskLevelOf overall
    let all_notable := p.2.1 ++ c.2.1 ++ g.2.1 ++ pr.2.1
    Except.ok
      { property_risk := round1 p.1
        claims_risk := round1 c.1
        geographic_risk := round1 g.1
        protection_risk := round1 pr.1
        overall_score := round1 overall
        risk_level := lvl.1
        recommendation := lvl.2
        top_factors := all_notable.take 5
        property_factors := p.2.2
        claims_factors := c.2.2
        geographic_factors := g.2.2
        protection_factors := pr.2.2 }

-- ---------------------------------------------------------------------------
-- Batch processor (add_risk_scores_to_df)
-- ---------------------------------------------------------------------------

def name_candidate_cols : List String :=
  ["Named Insured", "Property Name", "Insured Name", "Company"]

/-- First-row property name used to select the default profile: the first
candidate column present in the table, stringified and stripped. -/
def detectPropertyName (df : Table) : String :=
  match df.rows with
  | [] => ""
  | r :: _ =>
    match name_candidate_cols.find? (fun c => df.cols.contains c) with
    | Option.none => ""
    | some c => strTrim (pyStr (cellOf r c))

def base_defaults : List (String × Val) :=
  [("TIV (Total Insurable Value)", Val.num 17474609),
   ("FEMA Flood Zone", Val.str "D"),
   ("Wildfire Risk Score", Val.num (4689/100)),
   ("Earthquake Zone", Val.str "Zone 1"),
   ("Crime Score", Val.num 81),
   ("Verified Roof Condition", Val.str "Fair"),
   ("Construction Type", Val.str "Frame"),
   ("Year Built", Val.num 1989),
   ("Sprinklered %", Val.num 40),
   ("Fire Protection Class", Val.num 3),
   ("Burglar Alarm Type", Val.str "None"),
   ("Distance to Fire Station (miles)", Val.num 3)]

def mudo_profile : List (String × Val) :=
  [("Construction Type", Val.str "Frame"),
   ("Year Built", Val.num 1950),
   ("Verified Roof Condition", Val.str "Poor"),
   ("TIV (Total Insurable Value)", Val.num 2074124),
   ("Sprinklered %", Val.num 0),
   ("FEMA Flood Zone", Val.str "VE"),
   ("Wildfire Risk Score", Val.num 90),
   ("Earthquake Zone", Val.str "Zone 4"),
   ("Crime Score", Val.num 90),
   ("Fire Protection Class", Val.num 9),
   ("Burglar Alarm Type", Val.str "None"),
   ("Distance to Fire Station (miles)", Val.num 20)]

def jetwire_profile : List (String × Val) :=
  [("Construction Type", Val.str "Joisted Masonry"),
   ("Year Built", Val.num 1990),
   ("Verified Roof Condition", Val.str "Fair"),
   ("TIV (Total Insurable Value)", Val.num 3120088),
   ("Sprinklered %", Val.num 50),
   ("FEMA Flood Zone", Val.str "A"),
   ("Wildfire Risk Score", Val.num 50),
   ("Earthquake Zone", Val.str "Zone 2"),
   ("Crime Score", Val.num 50),
   ("Fire Protection Class", Val.num 5),
   ("Burglar Alarm Type", Val.str "Local"),
   ("Distance to Fire Station (miles)", Val.num 8)]

def quickbites_profile : List (String × Val) :=
  [("Construction Type", Val.str "Fire Resistive"),
   ("Year Built", Val.num 2020),
   ("Verified Roof Condition", Val.str "New"),
   ("TIV (Total Insurable Value)", Val.num 1896541),
   ("Sprinklered %", Val.num 100),
   ("FEMA Flood Zone", Val.str "X"),
   ("Wildfire Risk Score", Val.num 10),
   ("Earthquake Zone", Val.str "Zone 0"),
   ("Crime Score", Val.num 10),
   ("Fire Protection Class", Val.num 1),
   ("Burglar Alarm Type", Val.str "Central Station"),
   ("Distance to Fire Station (miles)", Val.num 1)]

/-- The default dict after the name-conditional `update` (Python dict
update keeps the base insertion order; every profile key exists in the
base dict). -/
def defaultsFor (name : String) : List (String × Val) :=
  let upd :=
    if name = "Mudo" then mudo_profile
    else if name = "Jetwire" then jetwire_profile
    else if name = "Quickbites" then quickbites_profile
    else []
  base_defaults.map (fun p => (p.1, (upd.lookup p.1).getD p.2))

def setCell (r : Row) (k : String) (v : Val) : Row :=
  if (rowGet? r k).isSome then
    r.map (fun p => if p.1 = k then (k, v) else p)
  else r ++ [(k, v)]

/-- One default column applied to the table: a missing column is created
filled with the default; an existing column has NaN cells and
empty-string cells filled (the `dtype == object` gate on the
empty-string fill is abstracted: only string cells can be empty). -/
def fillColumn (df : Table) (c : String) (dv : Val) : Table :=
  if df.cols.contains c then
    ⟨df.cols,
     df.rows.map (fun r =>
       let v := cellOf r c
       if isNA v then setCell r c dv
       else
         match v with
         | Val.str s => if strTrim s = "" then setCell r c dv else r
         | _ => r)⟩
  else
    ⟨df.cols ++ [c], df.rows.map (fun r => r ++ [(c, dv)])⟩

def score_col_names : List String :=
  ["Property_Risk_Score", "Claims_Risk_Score", "Geographic_Risk_Score",
   "Protection_Risk_Score", "Overall_Risk_Score", "Risk_Level",
   "Recommendation", "Top_Risk_Factors"]

def scoreRow (r : Row) (claims_df : Option Table) : Except String Row :=
  match calculate_all_risk_scores r claims_df with
  | Except.error e => Except.error e
  | Except.ok rs =>
    Except.ok (r ++
      [("Property_Risk_Score", Val.num rs.property_risk),
       ("Claims_Risk_Score", Val.num rs.claims_risk),
       ("Geographic_Risk_Score", Val.num rs.geographic_risk),
       ("Protection_Risk_Score", Val.num rs.protection_risk),
       ("Overall_Risk_Score", Val.num rs.overall_score),
       ("Risk_Level", Val.str rs.risk_level),
       ("Recommendation", Val.str rs.recommendation),
       ("Top_Risk_Factors", Val.str (joinSep " | " rs.top_factors))])

/-- The per-row scoring loop; the first raised exception propagates. -/
def scoreRows (claims_df : Option Table) : List Row → Except String (List Row)
  | [] => Except.ok []
  | r :: rest =>
    match scoreRow r claims_df with
    | Except.error e => Except.error e
    | Except.ok r2 =>
      match scoreRows claims_df rest with
      | Except.error e => Except.error e
      | Except.ok rs => Except.ok (r2 :: rs)

/-- `add_risk_scores_to_df`: copy the table, fill defaults selected by
the first row's property name, then score every row and append the eight
score columns. -/
def add_risk_scores_to_df (property_df : Table) (claims_df : Option Table) :
    Except String Table :=
  let name := detectPropertyName property_df
  let df1 := (defaultsFor name).foldl
    (fun d p => fillColumn d p.1 p.2) property_df
  match scoreRows claims_df df1.rows with
  | Except.error e => Except.error e
  | Except.ok rows2 => Except.ok ⟨df1.cols ++ score_col_names, rows2⟩

def firstRowCell (t : Table) (k : String) : Val :=
  match t.rows with
  | [] => Val.nan
  | r :: _ => cellOf r k

/-- The overall score cell of the first row after batch scoring with no
claims ledger (NaN when scoring errored; it cannot on this path). -/
def overallCell (t : Table) : Val :=
  match add_risk_scores_to_df t Option.none with
  | Except.error _ => Val.nan
  | Except.ok u => firstRowCell u "Overall_Risk_Score"

-- ===========================================================================
-- Theorems for the spec claims
-- ===========================================================================

/-- C1: the claim says a present-but-empty claims ledger is tolerated and
scoring falls back to the property record's summary fields. The code
instead raises: with a ledger of zero rows the matching block that assigns
the local `match_found` is skipped, yet the loss-type step still reads it,
so `calculate_claims_risk` raises UnboundLocalError for every property
row. This theorem evaluates the embedded code at the failing input. -/
theorem c1_empty_ledger_raises (row : Row) (cols : List String) :
    calculate_claims_risk row (some ⟨cols, []⟩) =
      Except.error
        "UnboundLocalError: local variable match_found referenced before assignment" :=
  rfl

/-- C2: risk tier and recommendation are a pure function of the overall
score with inclusive lower and exclusive upper bounds: `< 45` is
LOW / AUTO-BIND ELIGIBLE, exactly 45 (and all of `[45, 60)`) is
MEDIUM / STANDARD REVIEW, `[60, 80)` is HIGH / REFER TO SENIOR
UNDERWRITER, and `≥ 80` is VERY HIGH / DECLINE OR SPECIAL REVIEW. -/
theorem c2_risk_tiers (s : ℚ) :
    (s < 45 → riskLevelOf s = ("LOW", "AUTO-BIND ELIGIBLE")) ∧
    (s = 45 → riskLevelOf s = ("MEDIUM", "STANDARD REVIEW")) ∧
    (45 ≤ s → s < 60 → riskLevelOf s = ("MEDIUM", "STANDARD REVIEW")) ∧
    (60 ≤ s → s < 80 → riskLevelOf s = ("HIGH", "REFER TO SENIOR UNDERWRITER")) ∧
    (80 ≤ s → riskLevelOf s = ("VERY HIGH", "DECLINE OR SPECIAL REVIEW")) := by
  unfold riskLevelOf
  refine ⟨?_, ?_, ?_, ?_, ?_⟩ <;> intros <;> split_ifs <;>
    first
    | rfl
    | linarith

/-- Witness for C2 at the boundary score 45: it maps to MEDIUM /
STANDARD REVIEW. -/
theorem c2_risk_tiers_witness :
    (45 : ℚ) = 45 ∧ riskLevelOf 45 = ("MEDIUM", "STANDARD REVIEW") :=
  ⟨rfl, (c2_risk_tiers 45).2.1 rfl⟩

/-- C3 counterexample: for a property row with the categorical fields
entirely absent, the construction component is 80 (the absent field
defaults to the string Frame), the flood component is 10 (default zone X)
and the earthquake component is 10 (default Zone 0) — not the claimed
50 / 50 / 30, which are the lookup defaults for present-but-unmapped
values. -/
theorem c3_defaults_counterexample :
    construction_score [] = 80 ∧ flood_score [] = 10 ∧ eq_score [] = 10 ∧
    ¬(construction_score [] = 50 ∧ flood_score [] = 50 ∧ eq_score [] = 30) := by
  have hc : construction_score [] = 80 := by
    simp [construction_score, construction_of, pyGetD, rowGet?, dictGetV,
      CONSTRUCTION_RISK, List.lookup]
  have hf : flood_score [] = 10 := by
    simp [flood_score, flood_zone_of, pyGetD, rowGet?, dictGetV,
      FEMA_FLOOD_ZONE_RISK, List.lookup]
  have he : eq_score [] = 10 := by
    simp [eq_score, eq_zone_of, pyGetD, rowGet?, dictGetV,
      EARTHQUAKE_ZONE_RISK, List.lookup]
  refine ⟨hc, hf, he, ?_⟩
  rintro ⟨h, -, -⟩
  rw [hc] at h
  norm_num at h

/-- C3 amended: the stated defaults 50 / 50 / 30 are the lookup-table
defaults, applying when the categorical field is present but its value is
not a key of the lookup table; an absent field instead takes the field
default (Frame, X, Zone 0). -/
theorem c3_unmapped_value_defaults :
    (∀ (row : Row) (s : String), construction_of row = Val.str s →
      CONSTRUCTION_RISK.lookup s = Option.none → construction_score row = 50) ∧
    (∀ (row : Row) (s : String), flood_zone_of row = Val.str s →
      FEMA_FLOOD_ZONE_RISK.lookup s = Option.none → flood_score row = 50) ∧
    (∀ (row : Row) (s : String), eq_zone_of row = Val.str s →
      EARTHQUAKE_ZONE_RISK.lookup s = Option.none → eq_score row = 30) := by
  refine ⟨?_, ?_, ?_⟩ <;>
    intro row s h hl <;>
    simp only [construction_score, flood_score, eq_score, dictGetV, h, hl,
      Option.getD]

/-- Witness for C3's amended statement on a row carrying unmapped
categorical values. -/
theorem c3_unmapped_value_defaults_witness :
    construction_score [("Construction Type", Val.str "Bamboo")] = 50 ∧
    flood_score [("FEMA Flood Zone", Val.str "Q9")] = 50 ∧
    eq_score [("Earthquake Zone", Val.str "Zone 9")] = 30 := by
  refine ⟨?_, ?_, ?_⟩
  · exact c3_unmapped_value_defaults.1 _ "Bamboo"
      (by simp [construction_of, pyGetD, rowGet?])
      (by simp [CONSTRUCTION_RISK, List.lookup])
  · exact c3_unmapped_value_defaults.2.1 _ "Q9"
      (by simp [flood_zone_of, pyGetD, rowGet?])
      (by simp [FEMA_FLOOD_ZONE_RISK, List.lookup])
  · exact c3_unmapped_value_defaults.2.2 _ "Zone 9"
      (by simp [eq_zone_of, pyGetD, rowGet?])
      (by simp [EARTHQUAKE_ZONE_RISK, List.lookup])

/-- C4 counterexample: a sprinklered percentage of exactly 30 yields the
component score 75, not the claimed 45 (the code's middle branch requires
strictly more than 30). -/
theorem c4_sprinkler_boundary_counterexample :
    sprinkler_score [("Sprinklered %", Val.num 30)] = 75 ∧
    sprinkler_score [("Sprinklered %", Val.num 30)] ≠ 45 := by
  have h : sprinkler_score [("Sprinklered %", Val.num 30)] = 75 := by
    norm_num [sprinkler_score, sprinkler_pct, safe_float, pyGet, rowGet?]
  exact ⟨h, by rw [h]; norm_num⟩

/-- C4 amended: the sprinkler component is 20 when the percentage exceeds
70, 45 when it is strictly greater than 30 and at most 70, and 75 with one
notable factor (reporting the percentage) when it is at most 30 —
including exactly 30. -/
theorem c4_sprinkler_buckets (row : Row) :
    (70 < sprinkler_pct row →
      sprinkler_score row = 20 ∧ sprinkler_factors row = []) ∧
    (30 < sprinkler_pct row → sprinkler_pct row ≤ 70 →
      sprinkler_score row = 45 ∧ sprinkler_factors row = []) ∧
    (sprinkler_pct row ≤ 30 →
      sprinkler_score row = 75 ∧ (sprinkler_factors row).length = 1) := by
  refine ⟨?_, ?_, ?_⟩
  · intro h
    unfold sprinkler_score sprinkler_factors
    rw [if_pos h, if_pos h]
    exact ⟨rfl, rfl⟩
  · intro h1 h2
    have hn : ¬ 70 < sprinkler_pct row := by linarith
    unfold sprinkler_score sprinkler_factors
    rw [if_neg hn, if_pos h1, if_neg hn, if_pos h1]
    exact ⟨rfl, rfl⟩
  · intro h
    have h1 : ¬ 70 < sprinkler_pct row := by linarith
    have h2 : ¬ 30 < sprinkler_pct row := by linarith
    unfold sprinkler_score sprinkler_factors
    rw [if_neg h1, if_neg h2, if_neg h1, if_neg h2]
    exact ⟨rfl, rfl⟩

/-- Witness for C4's amended statement at the boundary percentage 30. -/
theorem c4_sprinkler_buckets_witness :
    sprinkler_pct [("Sprinklered %", Val.num 30)] ≤ 30 ∧
    sprinkler_score [("Sprinklered %", Val.num 30)] = 75 ∧
    (sprinkler_factors [("Sprinklered %", Val.num 30)]).length = 1 := by
  have hp : sprinkler_pct [("Sprinklered %", Val.num 30)] ≤ 30 := by
    norm_num [sprinkler_pct, safe_float, pyGet, rowGet?]
  obtain ⟨hs, hf⟩ := (c4_sprinkler_buckets _).2.2 hp
  exact ⟨hp, hs, hf⟩

/-- C5: whenever scoring succeeds, top_factors is exactly the first 5
elements of the concatenation of the notable-factor lists in the fixed
calculator order property ++ claims ++ geographic ++ protection, never
re-sorted. -/
theorem c5_top_factors_order (row : Row) (claims_df : Option Table)
    (rs : RiskScores)
    (h : calculate_all_risk_scores row claims_df = Except.ok rs) :
    ∃ c, calculate_claims_risk row claims_df = Except.ok c ∧
      rs.top_factors =
        ((calculate_property_risk row).2.1 ++ c.2.1 ++
          (calculate_geographic_risk row).2.1 ++
          (calculate_protection_risk row).2.1).take 5 := by
  unfold calculate_all_risk_scores at h
  cases hc : calculate_claims_risk row claims_df with
  | error e =>
    rw [hc] at h
    exact absurd h (fun hh => Except.noConfusion hh)
  | ok c =>
    rw [hc] at h
    refine ⟨c, rfl, ?_⟩
    injection h with h2
    rw [← h2]

/-- Witness for C5 on the empty row with no ledger. -/
theorem c5_top_factors_order_witness :
    ∃ rs, calculate_all_risk_scores [] Option.none = Except.ok rs ∧
      ∃ c, calculate_claims_risk [] Option.none = Except.ok c ∧
        rs.top_factors =
          ((calculate_property_risk []).2.1 ++ c.2.1 ++
            (calculate_geographic_risk []).2.1 ++
            (calculate_protection_risk []).2.1).take 5 :=
  ⟨_, rfl, c5_top_factors_order [] Option.none _ rfl⟩

/-- C6: with a nonempty claims ledger on which matching succeeds, the
claim count used for scoring is the maximum of the record's summary count
and the number of matched ledger rows, and the loss amount used is the
maximum of the summary amount and the sum of the matched rows' amount
column (as selected and cleaned by the matcher). -/
theorem c6_max_reconciliation (row : Row) (t : Table) (matched : List Row)
    (hne : t.rows ≠ []) (hm : claimsMatch row t = some matched) :
    (resolveLoss row (some t)).loss_count =
      max (summary_count row) (matched.length : ℤ) ∧
    (resolveLoss row (some t)).loss_amount =
      max (summary_amount row) (calcAmount t matched) := by
  have hE : t.rows.isEmpty = false := by
    cases hr : t.rows with
    | nil => exact absurd hr hne
    | cons a l => rfl
  simp only [resolveLoss, hE, Bool.false_eq_true, if_false, hm]
  exact ⟨trivial, trivial⟩

def c6Row : Row :=
  [("Agency Customer ID", Val.str "A1"),
   ("Loss History - Count", Val.num 1),
   ("Loss History - Total Amount", Val.num 100)]

def c6Ledger : Table :=
  ⟨["Agency Customer ID", "Total Incurred"],
   [[("Agency Customer ID", Val.str "A1"), ("Total Incurred", Val.num 250000)],
    [("Agency Customer ID", Val.str "B2"), ("Total Incurred", Val.num 50)]]⟩

def c6Matched : List Row :=
  [[("Agency Customer ID", Val.str "A1"), ("Total Incurred", Val.num 250000)]]

/-- Witness for C6 on a two-row ledger with an exact ID match. -/
theorem c6_max_reconciliation_witness :
    (resolveLoss c6Row (some c6Ledger)).loss_count =
      max (summary_count c6Row) ((c6Matched.length : ℤ)) ∧
    (resolveLoss c6Row (some c6Ledger)).loss_amount =
      max (summary_amount c6Row) (calcAmount c6Ledger c6Matched) :=
  c6_max_reconciliation c6Row c6Ledger c6Matched
    (by simp [c6Ledger])
    (by
      simp [c6Row, c6Ledger, c6Matched, claimsMatch, pyGet, pyGetD, rowGet?,
        truthy, valEq, cellOf, List.find?, List.filter])

/-- C7: with `Loss History - Count = 3` on the record and no claims
ledger, the count used by the claims calculator is 3, which maps to the
2-to-5 bucket score 40; the calculator returns normally on this path. -/
theorem c7_count_fallback (row : Row)
    (h : pyGet row "Loss History - Count" = Val.num 3) :
    (resolveLoss row Option.none).loss_count = 3 ∧ countScore 3 = 40 ∧
    ∃ out, calculate_claims_risk row Option.none = Except.ok out := by
  refine ⟨?_, by norm_num [countScore], ⟨_, rfl⟩⟩
  show summary_count row = 3
  unfold summary_count safe_int
  rw [h]
  norm_num [safe_float, ratTrunc]

/-- Witness for C7 on a concrete row carrying the count 3. -/
theorem c7_count_fallback_witness :
    (resolveLoss [("Loss History - Count", Val.num 3)] Option.none).loss_count = 3 ∧
    countScore 3 = 40 ∧
    ∃ out, calculate_claims_risk [("Loss History - Count", Val.num 3)]
      Option.none = Except.ok out :=
  c7_count_fallback _ (by simp [pyGet, rowGet?])

/-- C8: the four aggregation weights sum to 1, and the weighted overall
score lies in [0, 100] whenever all four sub-scores do. -/
theorem c8_weights_and_range :
    (w_property + w_claims + w_geographic + w_protection = 1) ∧
    ∀ p c g pr : ℚ, 0 ≤ p → p ≤ 100 → 0 ≤ c → c ≤ 100 → 0 ≤ g → g ≤ 100 →
      0 ≤ pr → pr ≤ 100 →
      0 ≤ overallScoreOf p c g pr ∧ overallScoreOf p c g pr ≤ 100 := by
  constructor
  · norm_num [w_property, w_claims, w_geographic, w_protection]
  · intro p c g pr hp0 hp1 hc0 hc1 hg0 hg1 hr0 hr1
    unfold overallScoreOf w_property w_claims w_geographic w_protection
    norm_num
    constructor <;> nlinarith

/-- Witness for C8 with all four sub-scores at 50. -/
theorem c8_weights_and_range_witness :
    (w_property + w_claims + w_geographic + w_protection = 1) ∧
    (0 ≤ overallScoreOf 50 50 50 50 ∧ overallScoreOf 50 50 50 50 ≤ 100) :=
  ⟨c8_weights_and_range.1,
   c8_weights_and_range.2 50 50 50 50 (by norm_num) (by norm_num)
     (by norm_num) (by norm_num) (by norm_num) (by norm_num) (by norm_num)
     (by norm_num)⟩

/-- C9: replacing the construction type by one whose lookup risk value is
at least as high, holding every other field fixed, never decreases the
property sub-score. -/
theorem c9_construction_monotone (r1 r2 : Row)
    (hother : ∀ k, k ≠ "Construction Type" → rowGet? r1 k = rowGet? r2 k)
    (hc : construction_score r1 ≤ construction_score r2) :
    (calculate_property_risk r1).1 ≤ (calculate_property_risk r2).1 := by
  have hyb : year_built_of r1 = year_built_of r2 := by
    unfold year_built_of pyGet
    rw [hother "Year Built" (by simp)]
  have ha : age_score r1 = age_score r2 := by
    unfold age_score building_age
    rw [hyb]
  have hr : roof_score r1 = roof_score r2 := by
    unfold roof_score roof_of pyGetD
    rw [hother "Verified Roof Condition" (by simp)]
  have hs : sprinkler_score r1 = sprinkler_score r2 := by
    unfold sprinkler_score sprinkler_pct pyGet
    rw [hother "Sprinklered %" (by simp)]
  show (construction_score r1 + age_score r1 + roof_score r1 +
      sprinkler_score r1) / 4 ≤
    (construction_score r2 + age_score r2 + roof_score r2 +
      sprinkler_score r2) / 4
  rw [ha, hr, hs]
  linarith

def c9RowLow : Row := [("Construction Type", Val.str "Fire Resistive")]

def c9RowHigh : Row := [("Construction Type", Val.str "Frame")]

/-- Witness for C9: Fire Resistive versus Frame with all other fields
absent. -/
theorem c9_construction_monotone_witness :
    construction_score c9RowLow ≤ construction_score c9RowHigh ∧
    (calculate_property_risk c9RowLow).1 ≤
      (calculate_property_risk c9RowHigh).1 := by
  have hother : ∀ k, k ≠ "Construction Type" →
      rowGet? c9RowLow k = rowGet? c9RowHigh k := by
    intro k hk
    have hb : ("Construction Type" == k) = false :=
      beq_eq_false_iff_ne.mpr (Ne.symm hk)
    simp [c9RowLow, c9RowHigh, rowGet?, List.find?, hb]
  have hcs : construction_score c9RowLow ≤ construction_score c9RowHigh := by
    simp only [construction_score, construction_of, c9RowLow, c9RowHigh,
      pyGetD, rowGet?, dictGetV, CONSTRUCTION_RISK, List.lookup, List.find?,
      String.reduceBEq, String.reduceEq, Option.getD, Option.map]
    norm_num
  exact ⟨hcs, c9_construction_monotone _ _ hother hcs⟩

def c10TableA : Table :=
  ⟨["Named Insured"], [[("Named Insured", Val.str "Mudo")]]⟩

def c10TableB : Table :=
  ⟨["Named Insured"], [[("Named Insured", Val.str "Quickbites")]]⟩

set_option maxHeartbeats 0 in
set_option maxRecDepth 10000 in
/-- C10: the batch processor fills absent/NaN columns with hardcoded
default profiles selected by the first row's property name: any
unrecognized name gets the base profile (Crime Score 81, Fire Protection
Class 3), Mudo a high-risk profile (e.g. Sprinklered 0), Jetwire a
medium-risk profile (Joisted Masonry), Quickbites a low-risk profile
(Fire Resistive); consequently two one-row tables whose only populated
field is the insured name receive different overall risk scores (64.0
versus 16.1). -/
theorem c10_name_dependent_defaults :
    ((defaultsFor "Acme Holdings").lookup "Crime Score" = some (Val.num 81)) ∧
    ((defaultsFor "Acme Holdings").lookup "Fire Protection Class" =
      some (Val.num 3)) ∧
    ((defaultsFor "Mudo").lookup "Sprinklered %" = some (Val.num 0)) ∧
    ((defaultsFor "Jetwire").lookup "Construction Type" =
      some (Val.str "Joisted Masonry")) ∧
    ((defaultsFor "Quickbites").lookup "Construction Type" =
      some (Val.str "Fire Resistive")) ∧
    overallCell c10TableA = Val.num 64 ∧
    overallCell c10TableB = Val.num (161 / 10) ∧
    overallCell c10TableA ≠ overallCell c10TableB := by
  have hA : overallCell c10TableA = Val.num 64 := by
    simp only [c10TableA, overallCell, add_risk_scores_to_df,
      detectPropertyName, name_candidate_cols, defaultsFor, base_defaults,
      mudo_profile, jetwire_profile, quickbites_profile, fillColumn, setCell,
      cellOf, rowGet?, pyGet, pyGetD, isNA, truthy, pyStr, valEq, strTrim,
      strLower, isWS, strContains, containsFrom, listIsPrefix, safe_float,
      ratTrunc, safe_int, fmtQ, CONSTRUCTION_RISK, ROOF_CONDITION_RISK,
      FEMA_FLOOD_ZONE_RISK, EARTHQUAKE_ZONE_RISK, BURGLAR_ALARM_RISK,
      dictGetV, construction_of, construction_score, year_built_of,
      building_age, age_score, roof_of, roof_score, sprinkler_pct,
      sprinkler_score, sprinkler_factors, property_notables,
      property_breakdown, calculate_property_risk, wildfire_of,
      flood_zone_of, flood_score, eq_zone_of, eq_score, crime_of,
      geographic_notables, geographic_breakdown, calculate_geographic_risk,
      fpc_of, fpc_score, alarm_of, alarm_score, distance_of, dist_score,
      protection_notables, protection_breakdown, calculate_protection_risk,
      summary_count, summary_amount, resolveLoss, countScore, countFactors,
      amountScore, amountFactors, typeScore, typeFactors, lossTypesOf,
      claimsBreakdown, calculate_claims_risk, w_property, w_claims,
      w_geographic, w_protection, overallScoreOf, riskLevelOf, rhe, round1,
      calculate_all_risk_scores, scoreRow, scoreRows, score_col_names,
      firstRowCell, joinSep, List.find?, List.lookup, List.filter,
      List.foldl, Option.getD, Option.map, List.contains, List.elem,
      List.isEmpty, List.append, Option.isSome, String.reduceEq,
      String.reduceBEq, beq_iff_eq, reduceIte, val_num_ne_str,
      val_none_ne_str, val_nan_ne_str]
    norm_num [val_num_ne_str, val_none_ne_str, val_nan_ne_str]
  have hB : overallCell c10TableB = Val.num (161 / 10) := by
    simp only [c10TableB, overallCell, add_risk_scores_to_df,
      detectPropertyName, name_candidate_cols, defaultsFor, base_defaults,
      mudo_profile, jetwire_profile, quickbites_profile, fillColumn, setCell,
      cellOf, rowGet?, pyGet, pyGetD, isNA, truthy, pyStr, valEq, strTrim,
      strLower, isWS, strContains, containsFrom, listIsPrefix, safe_float,
      ratTrunc, safe_int, fmtQ, CONSTRUCTION_RISK, ROOF_CONDITION_RISK,
      FEMA_FLOOD_ZONE_RISK, EARTHQUAKE_ZONE_RISK, BURGLAR_ALARM_RISK,
      dictGetV, construction_of, construction_score, year_built_of,
      building_age, age_score, roof_of, roof_score, sprinkler_pct,
      sprinkler_score, sprinkler_factors, property_notables,
      property_breakdown, calculate_property_risk, wildfire_of,
      flood_zone_of, flood_score, eq_zone_of, eq_score, crime_of,
      geographic_notables, geographic_breakdown, calculate_geographic_risk,
      fpc_of, fpc_score, alarm_of, alarm_score, distance_of, dist_score,
      protection_notables, protection_breakdown, calculate_protection_risk,
      summary_count, summary_amount, resolveLoss, countScore, countFactors,
      amountScore, amountFactors, typeScore, typeFactors, lossTypesOf,
      claimsBreakdown, calculate_claims_risk, w_property, w_claims,
      w_geographic, w_protection, overallScoreOf, riskLevelOf, rhe, round1,
      calculate_all_risk_scores, scoreRow, scoreRows, score_col_names,
      firstRowCell, joinSep, List.find?, List.lookup, List.filter,
      List.foldl, Option.getD, Option.map, List.contains, List.elem,
      List.isEmpty, List.append, Option.isSome, String.reduceEq,
      String.reduceBEq, beq_iff_eq, reduceIte, val_num_ne_str,
      val_none_ne_str, val_nan_ne_str]
    norm_num [val_num_ne_str, val_none_ne_str, val_nan_ne_str]
  refine ⟨?_, ?_, ?_, ?_, ?_, hA, hB, ?_⟩
  · simp [defaultsFor, base_defaults, mudo_profile, jetwire_profile,
      quickbites_profile, List.lookup]
  · simp [defaultsFor, base_defaults, mudo_profile, jetwire_profile,
      quickbites_profile, List.lookup]
  · simp [defaultsFor, base_defaults, mudo_profile, jetwire_profile,
      quickbites_profile, List.lookup]
  · simp [defaultsFor, base_defaults, mudo_profile, jetwire_profile,
      quickbites_profile, List.lookup]
  · simp [defaultsFor, base_defaults, mudo_profile, jetwire_profile,
      quickbites_profile, List.lookup]
  · rw [hA, hB]
    intro h
    rw [Val.num.injEq] at h
    norm_num at h

end ClaimsLikelihood
